import Mathlib

/-!
Verification development for the `gemini-rag` repository (files
`src/gemini/core.py` and `src/gemini/client.py`).

The development shallowly embeds the response-decoding pipeline and the
conversational session state machine of `core.py`:
  * `Gemini.generate_content` (core.py lines 190-350): request construction,
    the double-encoded-JSON decode stage, the candidate extraction stage and
    the trailing retry block;
  * `GeminiSession` (core.py lines 566-692): the 3-slot metadata tuple, its
    setters and accessors, the `__setattr__` coupling that fires when a
    `GeminiOutput` is recorded, `send_message` and `choose_candidate`.

Python values decoded from JSON are embedded as the inductive `PyObj`;
Python exceptions as the inductive `PyErr`; fallible code runs in
`Except PyErr`.  External collaborators that are not part of this
repository's source (the HTTP transport, `json.loads`, the cookie
provider, the `at` nonce) are supplied by an explicit environment `Env`,
mirroring the spec's external-interface section.  The model classes
(`WebImage`, `GeneratedImage`, `Candidate`, `GeminiOutput`) are imported by
`core.py` from `gemini.models`, a package whose sources are not present;
they are modelled from the spec's data-model section and marked as such.
-/

/-- A Python value as produced by `json.loads`: `None`, booleans, numbers
(modelled as integers; no claim depends on floats), strings, lists and
dicts. -/
inductive PyObj where
  | null
  | bool (b : Bool)
  | num (n : Int)
  | str (s : String)
  | arr (xs : List PyObj)
  | obj (kvs : List (String × PyObj))
deriving Repr, Inhabited

/-- Python exceptions raised by the embedded code.  `apiError`,
`geminiError` embed the repository's `APIError` and `GeminiError` classes
(imported from the absent `gemini.models.exceptions` module; modelled from
the spec's error taxonomy as plain exception kinds carrying a message);
`valueError` is Python's `ValueError`; the remaining constructors are the
raw Python exceptions that arise during decoding (`IndexError`,
`TypeError`, `KeyError`, `json.JSONDecodeError`, a model-validation
failure, and `RecursionError` for exhausted recursion fuel). -/
inductive PyErr where
  | apiError (msg : String)
  | geminiError (msg : String)
  | valueError (msg : String)
  | indexError
  | typeError
  | keyError
  | jsonDecodeError
  | validationError
  | recursionError
deriving Repr, DecidableEq

/-- Python list indexing `xs[i]` with an `int` index: a non-negative index
is positional (`IndexError` when past the end), a negative index `-(m+1)`
wraps to `len(xs) - (m+1)` (`IndexError` when that is still negative). -/
def pyListGet {α : Type} (xs : List α) : Int → Except PyErr α
  | .ofNat n =>
    match xs.get? n with
    | some a => .ok a
    | none => .error .indexError
  | .negSucc m =>
    if xs.length < m + 1 then .error .indexError
    else
      match xs.get? (xs.length - (m + 1)) with
      | some a => .ok a
      | none => .error .indexError

/-- Python subscripting `x[i]` on a decoded JSON value with an `int` index:
lists index positionally, strings yield one-character strings, dicts raise
`KeyError` for an `int` key, and scalars are not subscriptable
(`TypeError`). -/
def pyIndex : PyObj → Int → Except PyErr PyObj
  | .arr xs, i => pyListGet xs i
  | .str s, i =>
    match pyListGet s.toList i with
    | .ok c => .ok (.str (String.mk [c]))
    | .error e => .error e
  | .obj _, _ => .error .keyError
  | _, _ => .error .typeError

/-- Python truthiness of a decoded JSON value. -/
def pyTruthy : PyObj → Bool
  | .null => false
  | .bool b => b
  | .num n => n != 0
  | .str s => s != ""
  | .arr xs => !xs.isEmpty
  | .obj kvs => !kvs.isEmpty

/-- Python iteration over a decoded JSON value: lists yield their elements,
strings yield one-character strings, dicts yield their keys; scalars are
not iterable (`TypeError`). -/
def pyIter : PyObj → Except PyErr (List PyObj)
  | .arr xs => .ok xs
  | .str s => .ok (s.toList.map fun c => .str (String.mk [c]))
  | .obj kvs => .ok (kvs.map fun kv => .str kv.1)
  | _ => .error .typeError

/-- Python `str()` of a decoded JSON value, as used by the f-string in the
generated-image title.  Scalar conversions follow Python; the reprs of
composite values are abbreviated (no claim depends on them). -/
def pyStr : PyObj → String
  | .null => "None"
  | .bool true => "True"
  | .bool false => "False"
  | .num n => toString n
  | .str s => s
  | .arr _ => "<list>"
  | .obj _ => "<dict>"

/-- Helper for `pySplit`: walk the character list, cutting at every
separator occurrence (the accumulator holds the current chunk reversed). -/
def pySplitAux (sep : Char) : List Char → List Char → List String
  | [], acc => [String.mk acc.reverse]
  | c :: cs, acc =>
    if c = sep then String.mk acc.reverse :: pySplitAux sep cs []
    else pySplitAux sep cs (c :: acc)

/-- Python `text.split("\n")` (a single-character separator): splitting the
empty string yields `[""]`, and a trailing separator yields a trailing
empty chunk, exactly as in Python. -/
def pySplit (s : String) : List String := pySplitAux '\n' s.data []

/-- `enumerate` over a list starting at a given index. -/
def pyEnumerateFrom {α : Type} : Nat → List α → List (Nat × α)
  | _, [] => []
  | n, x :: xs => (n, x) :: pyEnumerateFrom (n + 1) xs

/-- Python `enumerate`. -/
def pyEnumerate {α : Type} (xs : List α) : List (Nat × α) :=
  pyEnumerateFrom 0 xs

/-- Effectful left-to-right map, the evaluation order of a Python list
comprehension: the first exception aborts the whole comprehension. -/
def exceptMapM {α β : Type} (f : α → Except PyErr β) : List α → Except PyErr (List β)
  | [] => .ok []
  | x :: xs => do
    let y ← f x
    let ys ← exceptMapM f xs
    .ok (y :: ys)

/-- `json.loads` applied to a Lean string: the parser itself is Python's
standard library (external to this repository), supplied by the
environment as a partial function; an unparseable string raises
`json.JSONDecodeError`. -/
def jsonLoadsStr (loads : String → Option PyObj) (s : String) : Except PyErr PyObj :=
  match loads s with
  | some j => .ok j
  | none => .error .jsonDecodeError

/-- `json.loads` applied to a decoded JSON value: only strings are
acceptable input, anything else raises `TypeError`. -/
def jsonLoads (loads : String → Option PyObj) : PyObj → Except PyErr PyObj
  | .str s => jsonLoadsStr loads s
  | _ => .error .typeError

/-- Modelled from the spec: `WebImage` lives in `gemini.models.base`, a
module absent from `src/`; per the spec's data model it is the immutable
record of an inline web image with string fields `url`, `title` and
`altText` (the source constructor keyword is `alt`). -/
structure WebImage where
  url : String
  title : String
  alt : String
deriving Repr, DecidableEq

/-- Modelled from the spec: `GeneratedImage` lives in `gemini.models.base`,
absent from `src/`; per the spec it carries the `WebImage` fields plus the
authentication cookies needed to fetch the asset (source constructor
keyword `cookies`). -/
structure GeneratedImage where
  url : String
  title : String
  alt : String
  cookies : List (String × String)
deriving Repr, DecidableEq

/-- Modelled from the spec: `Candidate` lives in `gemini.models.base`,
absent from `src/`; one alternative model response within a turn, holding
the reply-candidate id `rcid`, the text, and the two image lists. -/
structure Candidate where
  rcid : String
  text : String
  web_images : List WebImage
  generated_images : List GeneratedImage
deriving Repr, DecidableEq

/-- Modelled from the spec: `GeminiOutput` lives in `gemini.models.base`,
absent from `src/`; per the spec an Output is the metadata passed through
from the decoded body, the non-empty candidate list, and the mutable
`chosen` branch index defaulting to 0.  `chosen` is an `Int` because
`choose_candidate` stores a raw Python `int` into it. -/
structure GeminiOutput where
  metadata : List String
  candidates : List Candidate
  chosen : Int
deriving Repr, DecidableEq

/-- Modelled from the spec: `GeminiOutput.rcid`, read by
`GeminiSession.__setattr__` and `GeminiSession.choose_candidate`, is the
chosen candidate's reply-candidate id (`output.chosenCandidate.
replyCandidateId` in the spec), obtained by Python list indexing of the
candidate list at `chosen`. -/
def GeminiOutput.rcid (o : GeminiOutput) : Except PyErr String := do
  let c ← pyListGet o.candidates o.chosen
  .ok c.rcid

/-- Modelled from the spec: Python truthiness of a `GeminiOutput`
instance.  The model class defines neither `__bool__` nor `__len__`, so an
instance is always truthy (this is what makes the retry block in
`generate_content` unreachable). -/
def geminiOutputTruthy (_ : GeminiOutput) : Bool := true

/-- Modelled from the spec: validation of a model string field.  The model
fields are declared as strings, so constructing a model with a non-string
decoded value fails (a pydantic-style validation error) rather than
storing the raw value. -/
def asStr : PyObj → Except PyErr String
  | .str s => .ok s
  | _ => .error .validationError

/-- Modelled from the spec: validation of `GeminiOutput.metadata`, a list
of strings taken verbatim from `body[1]`. -/
def asStrList : PyObj → Except PyErr (List String)
  | .arr xs => exceptMapM asStr xs
  | _ => .error .validationError

/-- The decode stage of `Gemini.generate_content` (core.py lines 270-281)
before its `except Exception` handler: split the response text on newlines,
take the line at index 2, `json.loads` it, take element `[0][2]`,
`json.loads` it again; if index 4 of the result is falsy, redo the walk
through element `[4][2]` of the outer array; if index 4 is still falsy,
raise the `APIError` for an unstructured body. -/
def decodeAttempt (loads : String → Option PyObj) (text : String) : Except PyErr PyObj := do
  let line ← pyListGet (pySplit text) 2
  let outer ← jsonLoadsStr loads line
  let o0 ← pyIndex outer 0
  let inner ← pyIndex o0 2
  let body ← jsonLoads loads inner
  let b4 ← pyIndex body 4
  if pyTruthy b4 then
    .ok body
  else do
    let line2 ← pyListGet (pySplit text) 2
    let outer2 ← jsonLoadsStr loads line2
    let o4 ← pyIndex outer2 4
    let inner2 ← pyIndex o4 2
    let body2 ← jsonLoads loads inner2
    let b42 ← pyIndex body2 4
    if pyTruthy b42 then
      .ok body2
    else
      .error (.apiError "Failed to parse body. The response body is unstructured. Please try again.")

/-- The decode stage with its `except Exception` handler (core.py lines
282-285): every exception raised inside the first `try` block — including
the empty-body `APIError` raised at its end — is replaced by the single
`APIError` for an unexpected structured response. -/
def decodeStage (loads : String → Option PyObj) (text : String) : Except PyErr PyObj :=
  match decodeAttempt loads text with
  | .ok b => .ok b
  | .error _ => .error (.apiError "Failed to parse candidates. Unexpected structured response returned. Please try again.")

/-- One `WebImage` construction from the extraction loop (core.py lines
293-295): `WebImage(url=image[0][0][0], title=image[2], alt=image[0][4])`. -/
def buildWebImage (image : PyObj) : Except PyErr WebImage := do
  let url ← pyIndex image 0 >>= fun x => pyIndex x 0 >>= fun y => pyIndex y 0
  let title ← pyIndex image 2
  let alt ← pyIndex image 0 >>= fun x => pyIndex x 4
  let u ← asStr url
  let t ← asStr title
  let a ← asStr alt
  .ok ⟨u, t, a⟩

/-- One `GeneratedImage` construction from the extraction loop (core.py
lines 305-310): `GeneratedImage(url=image[0][3][3], title=f"[Generated
image ...]" of `image[3][6]`, alt=image[3][5][i], cookies=self.cookies)`,
where `i` is the enumeration index of the image. -/
def buildGeneratedImage (cookies : List (String × String)) (i : Nat) (image : PyObj) :
    Except PyErr GeneratedImage := do
  let url ← pyIndex image 0 >>= fun x => pyIndex x 3 >>= fun y => pyIndex y 3
  let ttl ← pyIndex image 3 >>= fun x => pyIndex x 6
  let alt ← pyIndex image 3 >>= fun x => pyIndex x 5 >>= fun y => pyIndex y (i : Int)
  let u ← asStr url
  let a ← asStr alt
  .ok ⟨u, "[Generated image " ++ pyStr ttl ++ "]", a, cookies⟩

/-- One iteration of the extraction loop (core.py lines 289-322): the
`candidate[4] and [...] or []` chain for web images, the `candidate[12] and
candidate[12][7] and candidate[12][7][0] and [...] or []` chain for
generated images (Python `and`/`or` return an operand, and an empty list
comprehension falls through to `[]`, which is the comprehension's own
value, so the chains reduce to truthiness tests), then
`Candidate(rcid=candidate[0], text=candidate[1][0], ...)`. -/
def extractCandidate (cookies : List (String × String)) (candidate : PyObj) :
    Except PyErr Candidate := do
  let c4 ← pyIndex candidate 4
  let web_images ←
    if pyTruthy c4 then do
      let items ← pyIter c4
      exceptMapM buildWebImage items
    else
      .ok []
  let c12 ← pyIndex candidate 12
  let generated_images ←
    if pyTruthy c12 then do
      let c127 ← pyIndex c12 7
      if pyTruthy c127 then do
        let c1270 ← pyIndex c127 0
        if pyTruthy c1270 then do
          let items ← pyIter c1270
          exceptMapM (fun p => buildGeneratedImage cookies p.1 p.2) (pyEnumerate items)
        else
          .ok []
      else
        .ok []
    else
      .ok []
  let rc ← pyIndex candidate 0
  let txt ← pyIndex candidate 1 >>= fun x => pyIndex x 0
  let rcs ← asStr rc
  let txts ← asStr txt
  .ok ⟨rcs, txts, web_images, generated_images⟩

/-- The extraction stage of `Gemini.generate_content` before its `except
IndexError` handler (core.py lines 287-329): iterate `body[4]`, build each
`Candidate`, raise `GeminiError` if no candidate was produced, then build
`GeminiOutput(metadata=body[1], candidates=candidates)`. -/
def extractAttempt (cookies : List (String × String)) (body : PyObj) :
    Except PyErr GeminiOutput := do
  let b4 ← pyIndex body 4
  let items ← pyIter b4
  let candidates ← exceptMapM (extractCandidate cookies) items
  if candidates.isEmpty then
    .error (.geminiError "Failed to generate candidates. No data of any kind returned.")
  else do
    let b1 ← pyIndex body 1
    let md ← asStrList b1
    .ok ⟨md, candidates, 0⟩

/-- The extraction stage with its `except IndexError` handler (core.py
lines 330-333): only `IndexError` is converted to the invalid-structure
`APIError`; every other exception (`TypeError`, `KeyError`,
`GeminiError`, validation failures) propagates to the caller unchanged. -/
def extractStage (cookies : List (String × String)) (body : PyObj) :
    Except PyErr GeminiOutput :=
  match extractAttempt cookies body with
  | .error .indexError => .error (.apiError "Failed to parse response body. Data structure is invalid.")
  | r => r

/-- The state of a `GeminiSession` (core.py lines 566-606): the private
3-slot metadata list `[cid, rid, rcid]` (each slot `None` when unset) and
the optional last recorded `GeminiOutput`.  The back-reference to the
`Gemini` client is not part of the state; the client's environment is
passed explicitly to the operations that need it. -/
structure GeminiSession where
  metadata : List (Option String)
  gemini_output : Option GeminiOutput
deriving Repr, DecidableEq

/-- A freshly constructed session: `__init__` sets
`self.__metadata = [None, None, None]` and `self.gemini_output = None`
before applying any of its optional seed arguments. -/
def GeminiSession.new : GeminiSession := ⟨[none, none, none], none⟩

/-- The `metadata` property setter (core.py lines 664-668) in
state-passing form: the length check runs before any mutation, so on
failure the returned list is the untouched input; on success the slice
assignment `self.__metadata[: len(value)] = value` overwrites exactly the
first `len(value)` slots. -/
def metadataSetRun (md : List (Option String)) (value : List String) :
    List (Option String) × Option PyErr :=
  if value.length > 3 then
    (md, some (.valueError "metadata cannot exceed 3 elements"))
  else
    (value.map some ++ md.drop value.length, none)

/-- The `metadata` property setter as an exception-raising operation. -/
def metadataSet (md : List (Option String)) (value : List String) :
    Except PyErr (List (Option String)) :=
  match metadataSetRun md value with
  | (_, some e) => .error e
  | (md2, none) => .ok md2

/-- `GeminiSession.metadata = value` on a session. -/
def GeminiSession.metadata_set (s : GeminiSession) (value : List String) :
    Except PyErr GeminiSession := do
  let md ← metadataSet s.metadata value
  .ok ⟨md, s.gemini_output⟩

/-- The `cid` property getter: `self.__metadata[0]` (core.py line 672). -/
def GeminiSession.cid (s : GeminiSession) : Option String := s.metadata.getD 0 none

/-- The `rid` property getter: `self.__metadata[1]` (core.py line 680). -/
def GeminiSession.rid (s : GeminiSession) : Option String := s.metadata.getD 1 none

/-- The `rcid` property getter: `self.__metadata[2]` (core.py line 688). -/
def GeminiSession.rcid (s : GeminiSession) : Option String := s.metadata.getD 2 none

/-- The `cid` property setter: `self.__metadata[0] = value`. -/
def GeminiSession.cid_set (s : GeminiSession) (v : String) : GeminiSession :=
  ⟨s.metadata.set 0 (some v), s.gemini_output⟩

/-- The `rid` property setter: `self.__metadata[1] = value`. -/
def GeminiSession.rid_set (s : GeminiSession) (v : String) : GeminiSession :=
  ⟨s.metadata.set 1 (some v), s.gemini_output⟩

/-- The `rcid` property setter: `self.__metadata[2] = value`. -/
def GeminiSession.rcid_set (s : GeminiSession) (v : String) : GeminiSession :=
  ⟨s.metadata.set 2 (some v), s.gemini_output⟩

/-- The `__setattr__` hook firing on `self.gemini_output = value` with a
`GeminiOutput` value (core.py lines 613-617): the attribute is stored,
then `self.metadata = value.metadata` runs the metadata setter, then
`self.rcid = value.rcid` stores the output's chosen-candidate id into
slot 2. -/
def recordOutput (s : GeminiSession) (out : GeminiOutput) : Except PyErr GeminiSession := do
  let s1 : GeminiSession := ⟨s.metadata, some out⟩
  let s2 ← s1.metadata_set out.metadata
  let rc ← out.rcid
  .ok (s2.rcid_set rc)

/-- `GeminiSession.choose_candidate` (core.py lines 637-658): raise
`ValueError` when no output was recorded; raise `ValueError` when
`index >= len(candidates)` (an `int` comparison, so negative indices
pass); otherwise store `index` into the output's `chosen`, re-derive
`self.rcid` from the mutated output, and return it. -/
def GeminiSession.choose_candidate (s : GeminiSession) (index : Int) :
    Except PyErr (GeminiSession × GeminiOutput) :=
  match s.gemini_output with
  | none => .error (.valueError "No previous gemini_output data found in this chat session.")
  | some out =>
    if (out.candidates.length : Int) ≤ index then
      .error (.valueError ("Index " ++ toString index ++
        " exceeds the number of candidates in last model gemini_output."))
    else
      let out2 : GeminiOutput := ⟨out.metadata, out.candidates, index⟩
      match out2.rcid with
      | .error e => .error e
      | .ok rc =>
        let s2 : GeminiSession := ⟨s.metadata, some out2⟩
        .ok (s2.rcid_set rc, out2)

/-- The `f.req` payload of one turn as structured data: the prompt and the
third element of `json.dumps([[prompt], None, session and
session.metadata])` (core.py lines 247-252), plus the `at` nonce.  The
URL-encoding and `json.dumps` serialisation belong to the external
transport and are not modelled; a `None` session contributes `None`
metadata, a session object (always truthy) contributes its metadata
list. -/
structure ReqData where
  atToken : String
  prompt : String
  metadata : Option (List (Option String))
deriving Repr, DecidableEq

/-- The external collaborators of `generate_content`, per the spec's
external-interface section: the `json.loads` parser, the cookie map held
by the client (`self.cookies`), the `at` nonce (`self.SNlM0e`, whose
acquisition `_get_snim0e` is transport glue), and the transport itself,
which turns a request payload into an HTTP status code and a response
text.  Translation, image upload and the `tool` parameter are unused by
the decode/session logic and are not modelled. -/
structure Env where
  loads : String → Option PyObj
  cookies : List (String × String)
  snlm0e : String
  respond : ReqData → Nat × String

/-- The request payload built by `generate_content` for a prompt and an
optional session (core.py lines 247-252). -/
def buildReq (env : Env) (prompt : String) (session : Option GeminiSession) : ReqData :=
  ⟨env.snlm0e, prompt, session.map fun s => s.metadata⟩

/-- One un-retried pass of `Gemini.generate_content` (core.py lines
247-333): build the request, send it, fail with `APIError` on a non-200
status, then run the decode stage and the extraction stage. -/
def generateContentOnce (env : Env) (prompt : String) (session : Option GeminiSession) :
    Except PyErr GeminiOutput := do
  let req := buildReq env prompt session
  let (status, text) := env.respond req
  if status ≠ 200 then
    .error (.apiError ("Request failed with status code " ++ toString status))
  else do
    let body ← decodeStage env.loads text
    extractStage env.cookies body

/-- The retry block of `generate_content` (core.py lines 336-348): `for _
in range(2)` around a recursive `generate_content` call whose exceptions
are swallowed, with the loop's `else` clause raising the terminal
`APIError`.  The credential refresh (`_get_auto_cookies(True)`,
`_get_session(None)`) touches only transport state already folded into
the recursive call's environment. -/
def retryLoop (gen : Unit → Except PyErr GeminiOutput) : Nat → Except PyErr GeminiOutput
  | 0 => .error (.apiError "Failed to establish session connection after retrying.")
  | n + 1 =>
    match gen () with
    | .ok out => .ok out
    | .error _ => retryLoop gen n

/-- `Gemini.generate_content` with recursion fuel for the (unreachable)
self-call inside the retry block: after the single pass, `if not
generated_content` guards the retry block, and a `GeminiOutput` instance
is always truthy. -/
def generateContentFuel : Nat → Env → String → Option GeminiSession →
    Except PyErr GeminiOutput
  | 0, _, _, _ => .error .recursionError
  | fuel + 1, env, prompt, session =>
    match generateContentOnce env prompt session with
    | .error e => .error e
    | .ok out =>
      if geminiOutputTruthy out then
        .ok out
      else
        retryLoop (fun _ => generateContentFuel fuel env prompt session) 2

/-- `Gemini.generate_content` (core.py lines 190-350).  Three units of
fuel cover the at most two recursive retry attempts. -/
def generate_content (env : Env) (prompt : String) (session : Option GeminiSession) :
    Except PyErr GeminiOutput :=
  generateContentFuel 3 env prompt session

/-- `GeminiSession.send_message` (core.py lines 619-635): exactly
`self.gemini.generate_content(prompt, self)`.  The source assigns nothing
to the session — `generate_content` only reads `session.metadata` — so the
call has no session state to return. -/
def GeminiSession.send_message (env : Env) (s : GeminiSession) (prompt : String) :
    Except PyErr GeminiOutput :=
  generate_content env prompt (some s)

/-- The decode recipe as the spec words it, for comparison with
`decodeStage`: identical except that it selects the line at index 3
(0-indexed) of the newline-split body instead of index 2. -/
def decodeAttemptSpec (loads : String → Option PyObj) (text : String) : Except PyErr PyObj := do
  let line ← pyListGet (pySplit text) 3
  let outer ← jsonLoadsStr loads line
  let o0 ← pyIndex outer 0
  let inner ← pyIndex o0 2
  let body ← jsonLoads loads inner
  let b4 ← pyIndex body 4
  if pyTruthy b4 then
    .ok body
  else do
    let line2 ← pyListGet (pySplit text) 3
    let outer2 ← jsonLoadsStr loads line2
    let o4 ← pyIndex outer2 4
    let inner2 ← pyIndex o4 2
    let body2 ← jsonLoads loads inner2
    let b42 ← pyIndex body2 4
    if pyTruthy b42 then
      .ok body2
    else
      .error (.apiError "Failed to parse body. The response body is unstructured. Please try again.")

/-- The spec-worded decode stage (line index 3) with the same exception
handler as `decodeStage`. -/
def decodeStageSpec (loads : String → Option PyObj) (text : String) : Except PyErr PyObj :=
  match decodeAttemptSpec loads text with
  | .ok b => .ok b
  | .error _ => .error (.apiError "Failed to parse candidates. Unexpected structured response returned. Please try again.")

/-- A raw web-image entry shaped as the extractor expects, from a
`(url, title, altText)` triple: `image[0][0][0]` is the url, `image[2]`
the title, `image[0][4]` the alt text. -/
def mkWebEntry (w : String × String × String) : PyObj :=
  .arr [.arr [.arr [.str w.1], .null, .null, .null, .str w.2.2], .null, .str w.2.1]

/-- The `WebImage` value the extractor builds from `mkWebEntry w`. -/
def webVal (w : String × String × String) : WebImage := ⟨w.1, w.2.1, w.2.2⟩

/-- A raw generated-image entry shaped as the extractor expects, from a
`(url, title, altTexts)` triple: `image[0][3][3]` is the url,
`image[3][6]` the title and `image[3][5]` the alt-text list that the
extractor indexes with the enumeration index. -/
def mkGenEntry (g : String × String × List String) : PyObj :=
  .arr [.arr [.null, .null, .null, .arr [.null, .null, .null, .str g.1]],
        .null, .null,
        .arr [.null, .null, .null, .null, .null, .arr (g.2.2.map PyObj.str), .str g.2.1]]

/-- The `GeneratedImage` value the extractor builds from `mkGenEntry` at
enumeration index `p.1`. -/
def genVal (cookies : List (String × String)) (p : Nat × (String × String × List String)) :
    GeneratedImage :=
  ⟨p.2.1, "[Generated image " ++ p.2.2.1 ++ "]", p.2.2.2.getD p.1 "", cookies⟩

/-- A raw candidate entry shaped as the extractor expects: index 0 the
reply-candidate id, index 1 the text list, index 4 the web images (`none`
stands for JSON `null`, the wire encoding of an absent field), indices
5-11 padding, index 12 the generated-image subtree with the image list at
`[12][7][0]`. -/
def mkEntry (rc txt : String) (webs : Option (List (String × String × String)))
    (gens : Option (List (String × String × List String))) : PyObj :=
  .arr [.str rc, .arr [.str txt], .null, .null,
        (match webs with
         | some ws => .arr (ws.map mkWebEntry)
         | none => .null),
        .null, .null, .null, .null, .null, .null, .null,
        (match gens with
         | some gs => .arr [.null, .null, .null, .null, .null, .null, .null,
                            .arr [.arr (gs.map mkGenEntry)]]
         | none => .null)]

/-- Fixture for the sequential-scenario claim: a transport that always
answers status 200 with a two-candidate body. -/
def outer1 : PyObj := .arr [.arr [.null, .null, .str "INNER1"]]

/-- The decoded body of the first fixture: metadata `["c_1", "r_1"]` at
index 1 and two plain candidates at index 4. -/
def body1 : PyObj :=
  .arr [.null, .arr [.str "c_1", .str "r_1"], .null, .null,
        .arr [mkEntry "rc_0" "t0" none none, mkEntry "rc_1" "t1" none none]]

/-- The `json.loads` behaviour of the first fixture. -/
def loads1 (s : String) : Option PyObj :=
  if s = "LINE2A" then some outer1 else if s = "INNER1" then some body1 else none

/-- The first fixture environment. -/
def env1 : Env := ⟨loads1, [("__Secure-1PSID", "ck")], "AT1", fun _ => (200, "L0\nL1\nLINE2A")⟩

/-- The output the first fixture decodes to. -/
def out1 : GeminiOutput :=
  ⟨["c_1", "r_1"], [⟨"rc_0", "t0", [], []⟩, ⟨"rc_1", "t1", [], []⟩], 0⟩

/-- Fixture for the retry claim: the primary candidate location holds an
empty list and the outer array has no index 4, so the decode stage fails. -/
def loads8 (s : String) : Option PyObj :=
  if s = "B2" then some (.arr [.arr [.null, .null, .str "INNER8"]])
  else if s = "INNER8" then some (.arr [.null, .null, .null, .null, .arr []])
  else none

/-- The retry-claim environment. -/
def env8 : Env := ⟨loads8, [], "AT8", fun _ => (200, "B0\nB1\nB2")⟩

/-- Fixture for the error-taxonomy claim, type-mismatch case: the
candidate list contains a JSON `null`, so the extractor subscripts `None`. -/
def loads9 (s : String) : Option PyObj :=
  if s = "C2X" then some (.arr [.arr [.null, .null, .str "INNER9"]])
  else if s = "INNER9" then some (.arr [.null, .null, .null, .null, .arr [.null]])
  else none

/-- The type-mismatch environment. -/
def env9 : Env := ⟨loads9, [], "AT9", fun _ => (200, "C0\nC1\nC2X")⟩

/-- Fixture for the error-taxonomy claim, empty-body case: both the
primary and the fallback location decode, but both hold a falsy index 4. -/
def loads9e (s : String) : Option PyObj :=
  if s = "D2" then
    some (.arr [.arr [.null, .null, .str "INNER9E"], .null, .null, .null,
                .arr [.null, .null, .str "INNER9F"]])
  else if s = "INNER9E" then some (.arr [.null, .null, .null, .null, .arr []])
  else if s = "INNER9F" then some (.arr [.null, .null, .null, .null, .null])
  else none

/-- The empty-body environment. -/
def env9e : Env := ⟨loads9e, [], "AT9E", fun _ => (200, "D0\nD1\nD2")⟩

/-- Fixture for the error-taxonomy claim, malformed-inner case: the line
parses but its element `[0][2]` is not valid JSON. -/
def loads9m (s : String) : Option PyObj :=
  if s = "E2" then some (.arr [.arr [.null, .null, .str "BADINNER"]]) else none

/-- The malformed-inner environment. -/
def env9m : Env := ⟨loads9m, [], "AT9M", fun _ => (200, "E0\nE1\nE2")⟩

/-- A session holding a recorded single-candidate output, for the
usage-error comparisons. -/
def sessionOne : GeminiSession :=
  ⟨[none, none, none], some ⟨[], [⟨"rc", "t", [], []⟩], 0⟩⟩

/-- Fixture for the decoder claim: four lines, where the line at index 2
decodes to a structured body and the line at index 3 does not parse. -/
def loads2 (s : String) : Option PyObj :=
  if s = "A2" then some (.arr [.arr [.null, .null, .str "IN2"]])
  else if s = "IN2" then some (.arr [.null, .null, .null, .null, .str "d"])
  else none

/-- The decoder-claim response text. -/
def text2 : String := "A0\nA1\nA2\nA3"

/-- The body the decoder-claim fixture decodes to. -/
def body2 : PyObj := .arr [.null, .null, .null, .null, .str "d"]

/-- Proof scaffolding: the continuation of `buildGeneratedImage` after the
alt-text lookup, used to step past the one input-dependent indexing. -/
def bgCont (u t : String) (ck : List (String × String)) (alt : PyObj) :
    Except PyErr GeneratedImage :=
  asStr alt >>= fun a => .ok ⟨u, "[Generated image " ++ t ++ "]", a, ck⟩

/-- Proof scaffolding: the continuation of `extractCandidate` after the
web-image comprehension, when a generated-image list follows. -/
def extractContW (ck : List (String × String)) (rc txt : String)
    (gs : List (String × String × List String)) (wimgs : List WebImage) :
    Except PyErr Candidate :=
  exceptMapM (fun p => buildGeneratedImage ck p.1 p.2) (pyEnumerateFrom 0 (gs.map mkGenEntry)) >>=
    fun gimgs => .ok ⟨rc, txt, wimgs, gimgs⟩

/-- Proof scaffolding: the continuation of `extractCandidate` after the
generated-image comprehension. -/
def extractContG (rc txt : String) (wimgs : List WebImage) (gimgs : List GeneratedImage) :
    Except PyErr Candidate :=
  .ok ⟨rc, txt, wimgs, gimgs⟩

/-- Proof scaffolding: the continuation of `extractCandidate` after the
web-image comprehension, when the generated-image chain is falsy. -/
def extractContWonly (rc txt : String) (wimgs : List WebImage) : Except PyErr Candidate :=
  .ok ⟨rc, txt, wimgs, []⟩

/-- A two-candidate output fixture for the `choose_candidate` witnesses. -/
def outTwo : GeminiOutput := ⟨[], [⟨"rca", "ta", [], []⟩, ⟨"rcb", "tb", [], []⟩], 0⟩

/-- A session holding `outTwo` as its recorded output. -/
def sessionTwo : GeminiSession := ⟨[none, none, none], some outTwo⟩

/-- Binding a success in `Except` applies the continuation. -/
lemma ok_bind {α β : Type} (a : α) (f : α → Except PyErr β) :
    (Except.ok a >>= f : Except PyErr β) = f a := rfl

/-- Binding a raised exception in `Except` propagates it. -/
lemma error_bind {α β : Type} (e : PyErr) (f : α → Except PyErr β) :
    (Except.error e >>= f : Except PyErr β) = Except.error e := rfl

/-- Python list indexing at a natural-number index is plain positional
lookup. -/
lemma pyListGet_natCast {α : Type} (xs : List α) (i : Nat) :
    pyListGet xs (i : Int) =
      match xs.get? i with
      | some a => Except.ok a
      | none => Except.error PyErr.indexError := rfl

/-- The extractor maps a well-shaped raw web-image entry to its
`WebImage`. -/
lemma buildWebImage_mk (w : String × String × String) :
    buildWebImage (mkWebEntry w) = .ok (webVal w) := rfl

/-- The extractor maps a well-shaped raw generated-image entry at
enumeration index `i` to its `GeneratedImage`, reading the alt text at
position `i` of the entry's own alt list. -/
lemma buildGen_mk (ck : List (String × String)) (i : Nat) (g : String × String × List String)
    (a : String) (ha : g.2.2.get? i = some a) :
    buildGeneratedImage ck i (mkGenEntry g) =
      .ok ⟨g.1, "[Generated image " ++ g.2.1 ++ "]", a, ck⟩ := by
  have hm : (g.2.2.map PyObj.str).get? i = some (PyObj.str a) := by
    rw [List.get?_eq_getElem?, List.getElem?_map, ← List.get?_eq_getElem?, ha]
    rfl
  calc buildGeneratedImage ck i (mkGenEntry g)
      = pyListGet (g.2.2.map PyObj.str) (i : Int) >>= bgCont g.1 g.2.1 ck := rfl
    _ = Except.ok (PyObj.str a) >>= bgCont g.1 g.2.1 ck := by rw [pyListGet_natCast, hm]
    _ = .ok ⟨g.1, "[Generated image " ++ g.2.1 ++ "]", a, ck⟩ := rfl

/-- The web-image comprehension over well-shaped entries succeeds and maps
entrywise. -/
lemma mapM_web (ws : List (String × String × String)) :
    exceptMapM buildWebImage (ws.map mkWebEntry) = .ok (ws.map webVal) := by
  induction ws with
  | nil => rfl
  | cons w t ih => simp [exceptMapM, buildWebImage_mk, ok_bind, ih]

/-- The generated-image comprehension over enumerated well-shaped entries
succeeds and maps entrywise, provided every entry's alt list is long
enough for its enumeration index. -/
lemma mapM_gen (ck : List (String × String)) (gs : List (String × String × List String)) :
    ∀ n : Nat, (∀ p ∈ pyEnumerateFrom n gs, p.1 < p.2.2.2.length) →
    exceptMapM (fun p => buildGeneratedImage ck p.1 p.2) (pyEnumerateFrom n (gs.map mkGenEntry)) =
      .ok ((pyEnumerateFrom n gs).map (genVal ck)) := by
  induction gs with
  | nil => intro n _; rfl
  | cons g t ih =>
    intro n h
    have hg : n < g.2.2.length := h (n, g) (by simp [pyEnumerateFrom])
    obtain ⟨a, ha⟩ : ∃ a, g.2.2.get? n = some a := ⟨g.2.2.get ⟨n, hg⟩, List.get?_eq_get hg⟩
    have hd : g.2.2.getD n "" = a := by
      rw [List.getD_eq_getElem?_getD, ← List.get?_eq_getElem?, ha]
      rfl
    have ht : ∀ p ∈ pyEnumerateFrom (n + 1) t, p.1 < p.2.2.2.length := by
      intro p hp
      exact h p (by
        rw [show pyEnumerateFrom n (g :: t) = (n, g) :: pyEnumerateFrom (n + 1) t from rfl]
        exact List.mem_cons_of_mem _ hp)
    simp [pyEnumerateFrom, exceptMapM, buildGen_mk ck n g a ha, ok_bind, ih (n + 1) ht, genVal, hd]
    rw [← List.get?_eq_getElem?, ha]
    rfl

/-- Claim C1 (refuted by the code; the session machinery shows the claim
is the intent): a successful `send_message` does NOT store the returned
`GeminiOutput` on the session — `generate_content` never assigns
`session.gemini_output`, so the `__setattr__` coupling never fires.  On a
fixture whose transport always returns a two-candidate body,
`send_message("a")` succeeds with two candidates, yet the follow-up
`choose_candidate(1)` raises the no-prior-output `ValueError`, and a
second `send_message("b")` would issue its request with the still-empty
metadata (`replyCandidateId` unset, not candidate 1's id). -/
theorem C1_output_not_stored :
    (GeminiSession.send_message env1 GeminiSession.new "a" = .ok out1 ∧
      out1.candidates.length = 2) ∧
    GeminiSession.new.choose_candidate 1 =
      .error (.valueError "No previous gemini_output data found in this chat session.") ∧
    buildReq env1 "b" (some GeminiSession.new) = ⟨"AT1", "b", some [none, none, none]⟩ :=
  ⟨⟨rfl, rfl⟩, rfl, rfl⟩

/-- Claim C2, counterexample to the claim as stated: the decoder selects
the newline-split line at index 2, not index 3.  On a four-line fixture
whose line 2 decodes to a structured body while line 3 is not valid JSON,
the source decoder succeeds with that body, whereas the recipe worded by
the spec (index 3) fails with the parse `APIError`. -/
theorem C2_counterexample :
    decodeStage loads2 text2 = .ok body2 ∧
    decodeStageSpec loads2 text2 =
      .error (.apiError "Failed to parse candidates. Unexpected structured response returned. Please try again.") :=
  ⟨rfl, rfl⟩

/-- Claim C2 (amended: the selected line index is 2, 0-indexed): the
decoder splits the body on newlines and selects line 2, parses it, takes
element `[0][2]`, parses that again; if index 4 of the result is falsy it
redoes the walk through element `[4][2]` of the outer array; and if index
4 is falsy both times it fails with the decode-stage `APIError` (the
spec's `EmptyBody`) instead of returning a value. -/
theorem C2_decode_recipe (loads : String → Option PyObj) (text L s1 : String)
    (outer o02 body1x b14 : PyObj)
    (hL : pyListGet (pySplit text) 2 = .ok L)
    (houter : loads L = some outer)
    (ho0 : pyIndex outer 0 = .ok o02)
    (hi1 : pyIndex o02 2 = .ok (.str s1))
    (hb1 : loads s1 = some body1x)
    (hb14 : pyIndex body1x 4 = .ok b14) :
    (pyTruthy b14 = true → decodeStage loads text = .ok body1x) ∧
    (pyTruthy b14 = false →
      ∀ (s2 : String) (o42 body2x b24 : PyObj),
        pyIndex outer 4 = .ok o42 →
        pyIndex o42 2 = .ok (.str s2) →
        loads s2 = some body2x →
        pyIndex body2x 4 = .ok b24 →
        ((pyTruthy b24 = true → decodeStage loads text = .ok body2x) ∧
         (pyTruthy b24 = false → decodeStage loads text =
            .error (.apiError "Failed to parse candidates. Unexpected structured response returned. Please try again.")))) := by
  constructor
  · intro htrue
    simp [decodeStage, decodeAttempt, hL, houter, ho0, hi1, hb1, hb14, htrue, jsonLoads,
      jsonLoadsStr, ok_bind]
  · intro hfalse s2 o42 body2x b24 ho4 hi2 hb2 hb24
    constructor
    · intro htrue2
      simp [decodeStage, decodeAttempt, hL, houter, ho0, hi1, hb1, hb14, hfalse, ho4, hi2, hb2,
        hb24, htrue2, jsonLoads, jsonLoadsStr, ok_bind]
    · intro hfalse2
      simp [decodeStage, decodeAttempt, hL, houter, ho0, hi1, hb1, hb14, hfalse, ho4, hi2, hb2,
        hb24, hfalse2, jsonLoads, jsonLoadsStr, ok_bind]

/-- Claim C2, witness: the amended decode recipe applied to the concrete
four-line fixture, primary path. -/
theorem C2_witness : decodeStage loads2 text2 = .ok body2 :=
  (C2_decode_recipe loads2 text2 "A2" "IN2" (.arr [.arr [.null, .null, .str "IN2"]])
    (.arr [.null, .null, .str "IN2"]) body2 (.str "d")
    rfl rfl rfl rfl rfl rfl).1 rfl

/-- Claim C3 (confirmed): on a well-shaped candidate entry the extractor
builds `Candidate` with `rcid = entry[0]`, `text = entry[1][0]`, web
images mapped from `entry[4]` as `url = image[0][0][0]`,
`title = image[2]`, `alt = image[0][4]` (empty when `entry[4]` is the
wire's null), and generated images — present only when `entry[12]`,
`entry[12][7]` and `entry[12][7][0]` are all present and truthy — mapped
with `url = image[0][3][3]`, title formatted from `image[3][6]`,
`alt = image[3][5][i]` at enumeration index `i`, and the session's
cookies attached. -/
theorem C3_extractor (cookies : List (String × String)) (rc txt : String)
    (webs : List (String × String × String)) (gens : List (String × String × List String))
    (halts : ∀ p ∈ pyEnumerate gens, p.1 < p.2.2.2.length) :
    extractCandidate cookies (mkEntry rc txt (some webs) (some gens)) =
      .ok ⟨rc, txt, webs.map webVal, (pyEnumerate gens).map (genVal cookies)⟩ ∧
    extractCandidate cookies (mkEntry rc txt none none) = .ok ⟨rc, txt, [], []⟩ := by
  refine ⟨?_, rfl⟩
  rcases webs with _ | ⟨w, ws⟩
  · rcases gens with _ | ⟨g, gs⟩
    · rfl
    · calc extractCandidate cookies (mkEntry rc txt (some []) (some (g :: gs)))
          = exceptMapM (fun p => buildGeneratedImage cookies p.1 p.2)
              (pyEnumerateFrom 0 ((g :: gs).map mkGenEntry)) >>= extractContG rc txt [] := rfl
        _ = Except.ok ((pyEnumerateFrom 0 (g :: gs)).map (genVal cookies)) >>=
              extractContG rc txt [] := by rw [mapM_gen cookies (g :: gs) 0 halts]
        _ = .ok ⟨rc, txt, [], (pyEnumerate (g :: gs)).map (genVal cookies)⟩ := rfl
  · rcases gens with _ | ⟨g, gs⟩
    · calc extractCandidate cookies (mkEntry rc txt (some (w :: ws)) (some []))
          = exceptMapM buildWebImage ((w :: ws).map mkWebEntry) >>=
              extractContWonly rc txt := rfl
        _ = Except.ok ((w :: ws).map webVal) >>= extractContWonly rc txt := by
              rw [mapM_web]
        _ = .ok ⟨rc, txt, (w :: ws).map webVal,
              (pyEnumerate ([] : List (String × String × List String))).map (genVal cookies)⟩ := rfl
    · calc extractCandidate cookies (mkEntry rc txt (some (w :: ws)) (some (g :: gs)))
          = exceptMapM buildWebImage ((w :: ws).map mkWebEntry) >>=
              extractContW cookies rc txt (g :: gs) := rfl
        _ = Except.ok ((w :: ws).map webVal) >>= extractContW cookies rc txt (g :: gs) := by
              rw [mapM_web]
        _ = exceptMapM (fun p => buildGeneratedImage cookies p.1 p.2)
              (pyEnumerateFrom 0 ((g :: gs).map mkGenEntry)) >>=
              extractContG rc txt ((w :: ws).map webVal) := rfl
        _ = Except.ok ((pyEnumerateFrom 0 (g :: gs)).map (genVal cookies)) >>=
              extractContG rc txt ((w :: ws).map webVal) := by
              rw [mapM_gen cookies (g :: gs) 0 halts]
        _ = .ok ⟨rc, txt, (w :: ws).map webVal, (pyEnumerate (g :: gs)).map (genVal cookies)⟩ := rfl

/-- Claim C3, witness: the extractor on a concrete entry with one web
image and one generated image, and on a concrete entry with both image
fields null. -/
theorem C3_witness :
    extractCandidate [("k", "v")]
        (mkEntry "r" "x" (some [("u1", "t1", "a1")]) (some [("gu", "gt", ["ga"])])) =
      .ok ⟨"r", "x", [("u1", "t1", "a1")].map webVal,
           (pyEnumerate [("gu", "gt", ["ga"])]).map (genVal [("k", "v")])⟩ ∧
    extractCandidate [("k", "v")] (mkEntry "r" "x" none none) = .ok ⟨"r", "x", [], []⟩ :=
  C3_extractor [("k", "v")] "r" "x" [("u1", "t1", "a1")] [("gu", "gt", ["ga"])] (by decide)

/-- Claim C4 (confirmed): recording a `GeminiOutput` onto a session runs
the metadata setter on `output.metadata` first and then overwrites slot 2
with the output's chosen-candidate id, in that order — the final tuple is
the prefix-overwritten metadata with slot 2 re-set to the chosen
candidate's `rcid`. -/
theorem C4_record_output (s : GeminiSession) (out : GeminiOutput) (rc : String)
    (hm : out.metadata.length ≤ 3) (hrc : out.rcid = .ok rc) :
    ∃ md1, metadataSet s.metadata out.metadata = .ok md1 ∧
      recordOutput s out = .ok ⟨md1.set 2 (some rc), some out⟩ := by
  refine ⟨out.metadata.map some ++ s.metadata.drop out.metadata.length, ?_, ?_⟩
  · simp [metadataSet, metadataSetRun, Nat.not_lt.mpr hm]
  · simp [recordOutput, GeminiSession.metadata_set, metadataSet, metadataSetRun,
      Nat.not_lt.mpr hm, hrc, ok_bind, GeminiSession.rcid_set]

/-- Claim C4, witness: recording a concrete single-candidate output onto a
fresh session. -/
theorem C4_witness :
    ∃ md1, metadataSet GeminiSession.new.metadata ["cm", "rm"] = .ok md1 ∧
      recordOutput GeminiSession.new ⟨["cm", "rm"], [⟨"rcw", "tw", [], []⟩], 0⟩ =
        .ok ⟨md1.set 2 (some "rcw"), some ⟨["cm", "rm"], [⟨"rcw", "tw", [], []⟩], 0⟩⟩ :=
  C4_record_output GeminiSession.new ⟨["cm", "rm"], [⟨"rcw", "tw", [], []⟩], 0⟩ "rcw"
    (by decide) rfl

/-- Claim C5 (confirmed): `choose_candidate` raises the no-prior-output
`ValueError` when no output is recorded; raises the index `ValueError`
for every index at or past the candidate count (in particular at the
count itself); and at index `count - 1` succeeds, storing that index into
the output's `chosen` and re-deriving metadata slot 2 as that candidate's
id. -/
theorem C5_choose_candidate (s : GeminiSession) (out : GeminiOutput)
    (hso : s.gemini_output = some out) (hne : out.candidates ≠ [])
    (hmd : s.metadata.length = 3) :
    (∀ (t : GeminiSession) (i : Int), t.gemini_output = none →
        t.choose_candidate i =
          .error (.valueError "No previous gemini_output data found in this chat session.")) ∧
    (∀ i : Int, (out.candidates.length : Int) ≤ i →
        s.choose_candidate i = .error (.valueError ("Index " ++ toString i ++
          " exceeds the number of candidates in last model gemini_output."))) ∧
    (∃ c, out.candidates.get? (out.candidates.length - 1) = some c ∧
        s.choose_candidate ((out.candidates.length : Int) - 1) =
          .ok (⟨s.metadata.set 2 (some c.rcid),
                some ⟨out.metadata, out.candidates, (out.candidates.length : Int) - 1⟩⟩,
               ⟨out.metadata, out.candidates, (out.candidates.length : Int) - 1⟩)) := by
  refine ⟨?_, ?_, ?_⟩
  · intro t i ht
    simp [GeminiSession.choose_candidate, ht]
  · intro i hi
    simp [GeminiSession.choose_candidate, hso, hi]
  · have hlen : 0 < out.candidates.length := List.length_pos.mpr hne
    obtain ⟨c, hc⟩ : ∃ c, out.candidates.get? (out.candidates.length - 1) = some c :=
      ⟨_, List.get?_eq_get (by omega)⟩
    refine ⟨c, hc, ?_⟩
    have hc' : out.candidates[out.candidates.length - 1]? = some c := by
      rw [← List.get?_eq_getElem?]
      exact hc
    have hcond : ¬((out.candidates.length : Int) ≤ (out.candidates.length : Int) - 1) := by omega
    have hrc : (⟨out.metadata, out.candidates,
        (out.candidates.length : Int) - 1⟩ : GeminiOutput).rcid = .ok c.rcid := by
      have hcast : ((out.candidates.length : Int) - 1) =
          ((out.candidates.length - 1 : Nat) : Int) := by omega
      simp [GeminiOutput.rcid, hcast, pyListGet_natCast, hc', ok_bind]
    simp [GeminiSession.choose_candidate, hso, hcond, hrc, GeminiSession.rcid_set, ok_bind]

/-- Claim C5, witness: on a session holding a two-candidate output, index
2 is rejected and index 1 succeeds, re-rooting metadata slot 2. -/
theorem C5_witness :
    sessionTwo.choose_candidate 2 =
      .error (.valueError "Index 2 exceeds the number of candidates in last model gemini_output.") ∧
    (∃ c, outTwo.candidates.get? 1 = some c ∧
      sessionTwo.choose_candidate 1 =
        .ok (⟨sessionTwo.metadata.set 2 (some c.rcid),
              some ⟨outTwo.metadata, outTwo.candidates, 1⟩⟩,
             ⟨outTwo.metadata, outTwo.candidates, 1⟩)) :=
  ⟨(C5_choose_candidate sessionTwo outTwo rfl (by decide) rfl).2.1 2 (by decide),
   (C5_choose_candidate sessionTwo outTwo rfl (by decide) rfl).2.2⟩

/-- Claim C6 (confirmed): for a value list of length 0-3, the metadata
setter succeeds and overwrites exactly the prefix slots — each overwritten
accessor returns exactly the supplied value, each remaining accessor is
untouched — and every slot of a fresh session reads as the explicit unset
value `none`, never a placeholder string. -/
theorem C6_metadata (s : GeminiSession) (value : List String)
    (hmd : s.metadata.length = 3) (hlen : value.length ≤ 3) :
    (∃ s', s.metadata_set value = .ok s' ∧
      s'.cid = (if 0 < value.length then value.get? 0 else s.cid) ∧
      s'.rid = (if 1 < value.length then value.get? 1 else s.rid) ∧
      s'.rcid = (if 2 < value.length then value.get? 2 else s.rcid)) ∧
    GeminiSession.new.cid = none ∧ GeminiSession.new.rid = none ∧
    GeminiSession.new.rcid = none := by
  refine ⟨?_, rfl, rfl, rfl⟩
  rcases s with ⟨md, go⟩
  rcases md with _ | ⟨m0, md⟩
  · simp at hmd
  rcases md with _ | ⟨m1, md⟩
  · simp at hmd
  rcases md with _ | ⟨m2, md⟩
  · simp at hmd
  rcases md with _ | ⟨m3, md⟩
  · rcases value with _ | ⟨v0, value⟩
    · exact ⟨_, rfl, rfl, rfl, rfl⟩
    rcases value with _ | ⟨v1, value⟩
    · exact ⟨_, rfl, rfl, rfl, rfl⟩
    rcases value with _ | ⟨v2, value⟩
    · exact ⟨_, rfl, rfl, rfl, rfl⟩
    rcases value with _ | ⟨v3, value⟩
    · exact ⟨_, rfl, rfl, rfl, rfl⟩
    · simp at hlen
  · simp at hmd

/-- Claim C6, witness: setting `["x", "y"]` on a fresh session. -/
theorem C6_witness :
    (∃ s', GeminiSession.new.metadata_set ["x", "y"] = .ok s' ∧
      s'.cid = (if 0 < (["x", "y"] : List String).length
                then (["x", "y"] : List String).get? 0 else GeminiSession.new.cid) ∧
      s'.rid = (if 1 < (["x", "y"] : List String).length
                then (["x", "y"] : List String).get? 1 else GeminiSession.new.rid) ∧
      s'.rcid = (if 2 < (["x", "y"] : List String).length
                 then (["x", "y"] : List String).get? 2 else GeminiSession.new.rcid)) ∧
    GeminiSession.new.cid = none ∧ GeminiSession.new.rid = none ∧
    GeminiSession.new.rcid = none :=
  C6_metadata GeminiSession.new ["x", "y"] rfl (by decide)

/-- Claim C7 (confirmed): a value list longer than 3 makes the metadata
setter raise `ValueError` with the invalid-metadata message, and the
length check precedes any mutation, so the metadata list is returned
untouched by the failed call. -/
theorem C7_metadata_overflow (s : GeminiSession) (value : List String) (h : 3 < value.length) :
    metadataSetRun s.metadata value =
      (s.metadata, some (.valueError "metadata cannot exceed 3 elements")) ∧
    s.metadata_set value = .error (.valueError "metadata cannot exceed 3 elements") := by
  constructor
  · simp [metadataSetRun, gt_iff_lt, h]
  · simp [GeminiSession.metadata_set, metadataSet, metadataSetRun, gt_iff_lt, h, error_bind]

/-- Claim C7, witness: a length-4 assignment on a fresh session. -/
theorem C7_witness :
    metadataSetRun GeminiSession.new.metadata ["a", "b", "c", "d"] =
      (GeminiSession.new.metadata, some (.valueError "metadata cannot exceed 3 elements")) ∧
    GeminiSession.new.metadata_set ["a", "b", "c", "d"] =
      .error (.valueError "metadata cannot exceed 3 elements") :=
  C7_metadata_overflow GeminiSession.new ["a", "b", "c", "d"] (by decide)

/-- Claim C8 (refuted by the code; the retry block and its comment show
the claim is the intent): a response decoding to zero usable candidates
makes `generate_content` fail immediately with the decode-stage
`APIError` — no retry happens, because the failure is raised before the
retry block and the block's own guard `if not generated_content` can
never hold (a `GeminiOutput` instance is always truthy).  The retry loop
itself, were it ever entered with a failing generator, would stop after
its 2 attempts with the terminal session-establishment `APIError`. -/
theorem C8_no_retry_on_empty :
    generate_content env8 "p" none =
      .error (.apiError "Failed to parse candidates. Unexpected structured response returned. Please try again.") ∧
    (∀ o : GeminiOutput, geminiOutputTruthy o = true) ∧
    retryLoop (fun _ => generate_content env8 "p" none) 2 =
      .error (.apiError "Failed to establish session connection after retrying.") :=
  ⟨rfl, fun _ => rfl, rfl⟩

/-- Claim C9, counterexample to the claim as stated: a structurally
invalid input does produce a raw crash — on a body whose candidate list
contains JSON `null`, the extractor subscripts `None` and the resulting
`TypeError` escapes `generate_content` unconverted (only `IndexError` is
caught). -/
theorem C9_counterexample : generate_content env9 "p" none = .error PyErr.typeError := rfl

/-- Claim C9 (amended): the caller-usage errors are `ValueError`s with
three pairwise distinct messages, and `NoCandidates` would be a
`GeminiError`, distinct from every `APIError`; but the decode-stage
failures are not mutually distinguishable — an empty body and a malformed
inner payload surface as the same `APIError` with the same message — and
a type-mismatching body crashes with a raw `TypeError` instead of a named
error kind. -/
theorem C9_taxonomy :
    GeminiSession.new.choose_candidate 0 =
      .error (.valueError "No previous gemini_output data found in this chat session.") ∧
    sessionOne.choose_candidate 5 =
      .error (.valueError "Index 5 exceeds the number of candidates in last model gemini_output.") ∧
    GeminiSession.new.metadata_set ["a", "b", "c", "d"] =
      .error (.valueError "metadata cannot exceed 3 elements") ∧
    (PyErr.valueError "No previous gemini_output data found in this chat session." ≠
      PyErr.valueError "Index 5 exceeds the number of candidates in last model gemini_output." ∧
     PyErr.valueError "No previous gemini_output data found in this chat session." ≠
      PyErr.valueError "metadata cannot exceed 3 elements" ∧
     PyErr.valueError "Index 5 exceeds the number of candidates in last model gemini_output." ≠
      PyErr.valueError "metadata cannot exceed 3 elements") ∧
    (∀ msg, PyErr.geminiError "Failed to generate candidates. No data of any kind returned." ≠
      PyErr.apiError msg) ∧
    generate_content env9e "p" none =
      .error (.apiError "Failed to parse candidates. Unexpected structured response returned. Please try again.") ∧
    generate_content env9m "p" none =
      .error (.apiError "Failed to parse candidates. Unexpected structured response returned. Please try again.") ∧
    generate_content env9 "p" none = .error PyErr.typeError := by
  refine ⟨rfl, rfl, rfl, ⟨by decide, by decide, by decide⟩, ?_, rfl, rfl, rfl⟩
  intro msg h
  cases h

/-- Claim C10 (confirmed): the guard in `choose_candidate` only rejects
indices at or past the candidate count, so a negative index within range
is accepted: `chosen` is set to the negative index and metadata slot 2 is
re-derived through Python negative indexing, which selects the candidate
at `index + count` (so `-1` selects the last candidate). -/
theorem C10_negative_index (s : GeminiSession) (out : GeminiOutput) (i : Int)
    (hso : s.gemini_output = some out) (hmd : s.metadata.length = 3)
    (h1 : -(out.candidates.length : Int) ≤ i) (h2 : i < 0) :
    ∃ c, out.candidates.get? (i + out.candidates.length).toNat = some c ∧
      s.choose_candidate i =
        .ok (⟨s.metadata.set 2 (some c.rcid), some ⟨out.metadata, out.candidates, i⟩⟩,
             ⟨out.metadata, out.candidates, i⟩) := by
  cases i with
  | ofNat n => exact absurd h2 (by rw [Int.ofNat_eq_natCast]; omega)
  | negSucc m =>
    rw [Int.negSucc_eq] at h1
    have hm1 : m + 1 ≤ out.candidates.length := by omega
    obtain ⟨c, hc⟩ : ∃ c, out.candidates.get? (out.candidates.length - (m + 1)) = some c :=
      ⟨_, List.get?_eq_get (by omega)⟩
    have hc' : out.candidates[out.candidates.length - (m + 1)]? = some c := by
      rw [← List.get?_eq_getElem?]
      exact hc
    have htn : (Int.negSucc m + out.candidates.length).toNat =
        out.candidates.length - (m + 1) := by rw [Int.negSucc_eq]; omega
    refine ⟨c, by rw [htn]; exact hc, ?_⟩
    have hcond : ¬((out.candidates.length : Int) ≤ Int.negSucc m) := by
      rw [Int.negSucc_eq]
      omega
    have hrc : (⟨out.metadata, out.candidates, Int.negSucc m⟩ : GeminiOutput).rcid =
        .ok c.rcid := by
      simp [GeminiOutput.rcid, pyListGet, Nat.not_lt.mpr hm1, hc', ok_bind]
    simp [GeminiSession.choose_candidate, hso, hcond, hrc, GeminiSession.rcid_set, ok_bind]

/-- Claim C10, witness: on a two-candidate session, index `-1` is
accepted and selects the last candidate. -/
theorem C10_witness :
    ∃ c, outTwo.candidates.get? ((-1 : Int) + outTwo.candidates.length).toNat = some c ∧
      sessionTwo.choose_candidate (-1) =
        .ok (⟨sessionTwo.metadata.set 2 (some c.rcid),
              some ⟨outTwo.metadata, outTwo.candidates, -1⟩⟩,
             ⟨outTwo.metadata, outTwo.candidates, -1⟩) :=
  C10_negative_index sessionTwo outTwo (-1) rfl rfl (by decide) (by decide)
